import Mathlib

/-!
Shallow embedding of `gimmemotifs/scanner/__init__.py` (the scanner
orchestration layer): motif-source resolution (`check_motifs`), background
size estimation and table construction (`scan_regionfile_to_table`), the
streaming writer (`scan_to_file`, its header block, its engine-call trace and
its sink lifecycle), the line formatter (`_format_line`), the score-table
renderer (`_scan_score_table`) and the best-match entry point
(`scan_to_best_match`).

Machine floats that flow through the layer (FPR values, cutoffs, scores) are
modelled as rationals; the exact decimal renderings the layer performs on
them (Python `repr` and `"{:4f}".format`) are modelled as functions on those
rationals.  Scores that are only ever forwarded verbatim into output text are
modelled as pre-rendered strings.
-/

namespace Gimme

/-! ### Small string helpers shared by the embedding -/

/-- `"\t".join(xs)` from Python. -/
def tabJoin (xs : List String) : String :=
  String.intercalate "\t" xs

/-- Left-pad `s` with the character `c` up to length `n`. -/
def padLeftChar (c : Char) (n : Nat) (s : String) : String :=
  String.mk (List.replicate (n - s.length) c) ++ s

/-- Python `int()` of a non-empty decimal digit string (used for the regex
groups `\d+` of `_format_line`). -/
def natOfDigits (cs : List Char) : Nat :=
  cs.foldl (fun n c => n * 10 + (c.toNat - '0'.toNat)) 0

/-- Python slicing `s[a:b]` for `0 ≤ a ≤ b` (clamped at the string's end,
exactly as Python clamps). -/
def pySlice (s : String) (a b : Nat) : String :=
  String.mk ((s.data.drop a).take (b - a))

/-! ### Decimal rendering of floats

`scan_to_file` interpolates `fpr` and `cutoff` into f-strings (Python `repr`
of a float) and `_scan_score_table` renders scores with `"{:4f}".format`.
Both are modelled on rationals; `pyFloatRepr` models `repr` for values with
an exact decimal expansion (every value the claims touch). -/

/-- Number of decimal digits of the shortest exact decimal expansion of `q`
(capped at 17, the float `repr` limit), at least 1 as Python prints floats
with at least one digit after the point.  `q` has a `k`-digit exact
expansion exactly when its reduced denominator divides `10^k`. -/
def decimalLen (q : Rat) : Nat :=
  match (List.range 17).find? (fun k => 10 ^ (k + 1) % q.den == 0) with
  | some k => k + 1
  | none => 17

/-- Python `repr` of a float with exact value `q` (decimal-exact values):
optional sign, integer part, a dot, then the shortest exact fraction.
`|q| * 10^k` is computed as `|num| * 10^k / den`, exact because the
denominator divides `10^k`. -/
def pyFloatRepr (q : Rat) : String :=
  let k := decimalLen q
  let scaled := q.num.natAbs * 10 ^ k / q.den
  (if q.num < 0 then "-" else "")
    ++ toString (scaled / 10 ^ k) ++ "."
    ++ padLeftChar '0' k (toString (scaled % 10 ^ k))

/-- Round `a / b` (for `b > 0`) to the nearest natural number, ties to even
(the rounding Python's float formatting applies to the decimal value of the
argument). -/
def roundHalfEvenNat (a b : Nat) : Nat :=
  let f := a / b
  let r := a % b
  if 2 * r < b then f
  else if b < 2 * r then f + 1
  else if f % 2 = 0 then f else f + 1

/-- Python fixed-point formatting `"{:.<prec>f}"` (positive precision):
sign, integer part, a dot, exactly `prec` fractional digits.  The scaled
magnitude `|q| * 10^prec` is `|num| * 10^prec / den`, rounded half to
even. -/
def pyFormatFixed (prec : Nat) (q : Rat) : String :=
  let sign := if q.num < 0 then "-" else ""
  let m := roundHalfEvenNat (q.num.natAbs * 10 ^ prec) q.den
  sign ++ toString (m / 10 ^ prec) ++ "." ++ padLeftChar '0' prec (toString (m % 10 ^ prec))

/-- Python `"{:<width>f}".format(q)`: fixed-point with the DEFAULT precision
of 6 when no `.precision` is given, left-padded with spaces to the minimum
field width.  The source uses `"{:4f}"`: width 4, precision 6. -/
def pyFormatF (width prec : Nat) (q : Rat) : String :=
  padLeftChar ' ' width (pyFormatFixed prec q)

/-! ### `check_motifs` (lines 136-167) -/

/-- A value appearing as the first element of a motif list; `has_to_ppm`
models Python `hasattr(m, "to_ppm")`. -/
structure MotifObj where
  has_to_ppm : Bool
deriving DecidableEq

/-- The possible runtime types of the `pfmfile_or_motifs` argument:
a list, a string, `None`, or any other type. -/
inductive PfmSource where
  | ofList (ms : List MotifObj)
  | ofStr (s : String)
  | noneV
  | otherV
deriving DecidableEq

/-- Modelled from the spec: process configuration consulted by
`MotifConfig` (`gimmemotifs.config` is not part of the embedded source).
`motif_db` is `get_default_params().get("motif_db", None)`; `motif_dir` is
`get_motif_dir()`. -/
structure MotifConfig where
  motif_db : Option String
  motif_dir : String
deriving DecidableEq

/-- The exceptions `check_motifs` can raise. -/
inductive CheckError where
  | valueError (msg : String)
  | fileNotFound (path : String)
  | indexError
deriving DecidableEq

/-- The normalized result of `check_motifs`: the motif list itself, or a
resolved path string. -/
inductive CheckResult where
  | motifList (ms : List MotifObj)
  | path (p : String)
deriving DecidableEq

/-- Message of the `ValueError` raised for a list without Motif instances
(the three adjacent string literals of the source, concatenated). -/
def badListMsg : String :=
  "The input list does not contain Motif instances. Please provide a pfmfile as a string, a list of Motif instances, or None."

/-- Message of the `ValueError` raised for an unsupported input type. -/
def badTypeMsg : String :=
  "Please provide a pfmfile as a string, a list of Motif instances, or None."

/-- Message of the `ValueError` raised when no default database is set. -/
def noDefaultMsg : String :=
  "No pfmfile given and no default database specified"

/-- Python `os.path.join(a, b)` for POSIX paths: an absolute `b` replaces
`a`; otherwise they are joined with a separator unless `a` is empty or
already ends in one. -/
def osPathJoin (a b : String) : String :=
  if b.data.head? = some '/' then b
  else if a = "" then b
  else if a.data.getLast? = some '/' then a ++ b
  else a ++ "/" ++ b

/-- `check_motifs(pfmfile_or_motifs)`:  the file-existence test
`os.path.exists` is abstracted as the predicate `pathExists`. -/
def check_motifs (cfg : MotifConfig) (pathExists : String → Bool) :
    PfmSource → Except CheckError CheckResult
  | .ofList ms =>
    match ms with
    | [] => .error .indexError   -- `motifs[0]` on an empty list
    | m :: rest =>
      if m.has_to_ppm then .ok (.motifList (m :: rest))
      else .error (.valueError badListMsg)
  | .ofStr s =>
    if pathExists s then .ok (.path s) else .error (.fileNotFound s)
  | .noneV =>
    match cfg.motif_db with
    | none => .error (.valueError noDefaultMsg)
    | some db =>
      let p := osPathJoin cfg.motif_dir db
      if pathExists p then .ok (.path p) else .error (.fileNotFound p)
  | .otherV => .error (.valueError badTypeMsg)

/-- Does the outcome carry one of the two input-validation messages (spec
taxonomy distinguishes these from the configuration error by message)? -/
def isInputValidation (r : Except CheckError CheckResult) : Bool :=
  match r with
  | .error (.valueError m) => m == badListMsg || m == badTypeMsg
  | _ => false

/-! ### Background size estimation (lines 90-98) -/

/-- The sampling step of `scan_regionfile_to_table`: with 1000 or more
regions, `random.choice(regions, size=1000, replace=False)` on the
injectable random source, else the full list. -/
def checkRegionsModel (sample : List String → Nat → List String)
    (regions : List String) : List String :=
  if 1000 ≤ regions.length then sample regions 1000 else regions

/-- The contract of drawing `k` elements without replacement from a
population: the draw has length `k` and is a sub-permutation of the
population. -/
def SamplesWithoutReplacement (sample : List String → Nat → List String) : Prop :=
  ∀ pop k, k ≤ pop.length →
    (sample pop k).length = k ∧ List.Subperm (sample pop k) pop

/-- `int(np.median(xs))` on a non-empty list of sequence lengths: sort,
take the middle element, or the floor of the mean of the two middle
elements (non-negative truncation = floor). -/
def intMedian (xs : List Nat) : Nat :=
  let s := List.insertionSort (fun a b => a ≤ b) xs
  let n := s.length
  if n % 2 = 1 then s.getD (n / 2) 0
  else (s.getD (n / 2 - 1) 0 + s.getD (n / 2) 0) / 2

/-- `size = int(np.median([len(seq) for seq in as_fasta(check_regions,
genome).seqs]))`; resolving a region to its sequence length through
`as_fasta`/the genome is abstracted as `resolve`. -/
def sizeEstimate (resolve : String → Nat)
    (sample : List String → Nat → List String) (regions : List String) : Nat :=
  intMedian ((checkRegionsModel sample regions).map resolve)

/-! ### Engine-call traces (`Scanner` configuration, §6 contract) -/

/-- The result-producing operations of the scanning engine. -/
inductive ScanKind where
  | count
  | bestScore
  | bestMatch
  | scanOp
deriving DecidableEq

/-- One call into the scanning engine, with the arguments the call site
passes (an argument a call site does not pass is recorded as its `None`
default). -/
inductive EngineEvent where
  | construct
  | setMotifs
  | setGenome (g : Option String)
  | setBackground (bg : Option String) (genome : Option String) (gc : Bool)
  | setThreshold (fpr : Option Rat) (threshold : Option Rat)
  | scanCall (kind : ScanKind)
deriving DecidableEq

/-- Is this event a `set_threshold` call? -/
def isThresholdEvent : EngineEvent → Bool
  | .setThreshold _ _ => true
  | _ => false

/-- Is this event a `set_background` call? -/
def isBackgroundEvent : EngineEvent → Bool
  | .setBackground _ _ _ => true
  | _ => false

/-- Is this event the engine construction? -/
def isConstructEvent : EngineEvent → Bool
  | .construct => true
  | _ => false

/-- Is this event a result-producing scan call? -/
def isScanEvent : EngineEvent → Bool
  | .scanCall _ => true
  | _ => false

/-- Phase rank of an event under the claimed fixed order: construction,
then motifs, then genome/background, then threshold, then scan calls. -/
def eventRank : EngineEvent → Nat
  | .construct => 0
  | .setMotifs => 1
  | .setGenome _ => 2
  | .setBackground _ _ _ => 2
  | .setThreshold _ _ => 3
  | .scanCall _ => 4

/-- Is a list of ranks non-decreasing? -/
def ranksMonotone : List Nat → Bool
  | [] => true
  | [_] => true
  | a :: b :: rest => Nat.ble a b && ranksMonotone (b :: rest)

/-- The claimed discipline: exactly one engine construction, and the event
phases never step backwards (motifs before genome/background before
threshold before any scan call). -/
def claimOrderOK (tr : List EngineEvent) : Bool :=
  (tr.countP isConstructEvent == 1) && ranksMonotone (tr.map eventRank)

/-- Coarse phase rank: construction, then any configuration call, then any
scan call. -/
def coarseRank : EngineEvent → Nat
  | .construct => 0
  | .scanCall _ => 2
  | _ => 1

/-- Exactly one construction, and every configuration call precedes every
result-producing scan call. -/
def coarseOrderOK (tr : List EngineEvent) : Bool :=
  (tr.countP isConstructEvent == 1) && ranksMonotone (tr.map coarseRank)

/-- The default false-positive rate `FPR` imported from the engine module.
Modelled from the spec: "default 0.01" (also stated in the source's
docstring "an FPR threshold of 0.01"). -/
def FPR : Rat := mkRat 1 100

/-- Engine calls of `scan_regionfile_to_table` (lines 100-123): construct,
`set_motifs`, `set_genome(genome)`, `set_background(gc=gc, size=size)`,
then for `scoring == "count"` a `set_threshold(fpr=FPR)` and a `count`
call, otherwise a `best_score` call. -/
def scanRegionfileTrace (g : String) (gc : Bool) (scoring : String) :
    List EngineEvent :=
  [.construct, .setMotifs, .setGenome (some g), .setBackground none none gc]
  ++ (if scoring = "count"
      then [.setThreshold (some FPR) none, .scanCall .count]
      else [.scanCall .bestScore])

/-- Engine calls of `scan_to_best_match` (lines 460-471): construct,
`set_genome(genome)`, `set_motifs`, `set_threshold(threshold=0.0)`, then
`best_score` or `best_match` depending on the `score` flag. -/
def scanToBestMatchTrace (g : Option String) (score : Bool) : List EngineEvent :=
  [.construct, .setGenome g, .setMotifs, .setThreshold none (some 0),
   .scanCall (if score then .bestScore else .bestMatch)]

/-! ### `scan_to_file` (lines 170-321) -/

/-- The arguments of `scan_to_file` that drive its header block, its engine
calls and its sink lifecycle (defaults as in the Python signature;
`version` stands for the imported `__version__`). -/
structure ScanToFileArgs where
  version : String := "0"
  inputfile : String := "input.fa"
  pfmfile : String := "motifs.pfm"
  fpr : Option Rat := some (mkRat 1 100)
  cutoff : Option Rat := none
  bed : Bool := false
  table : Bool := false
  score_table : Bool := false
  bgfile : Option String := none
  genome : Option String := none
  zscore : Bool := true
  gcnorm : Bool := true
deriving DecidableEq

/-- Python truthiness of an optional string (`if genome:`/`elif bgfile:`):
present and non-empty. -/
def truthyStr : Option String → Bool
  | none => false
  | some s => s ≠ ""

/-- Python truthiness of an optional float (`if fpr`): present and
non-zero. -/
def truthyRat : Option Rat → Bool
  | none => false
  | some q => q ≠ 0

/-- Lines 262-263: `if fpr is None and cutoff is None: fpr = FPR`. -/
def effectiveFpr (a : ScanToFileArgs) : Option Rat :=
  if a.fpr = none ∧ a.cutoff = none then some FPR else a.fpr

/-- One line of the `#`-prefixed header comment block, structured. -/
inductive HeaderItem where
  | versionLine (v : String)
  | inputLine (f : String)
  | motifsLine (p : String)
  | fprLine (fpr : Rat) (src : String)
  | thresholdLine (c : Rat)
  | scoringLine (desc : String)
deriving DecidableEq

/-- Is this header item the false-positive-rate line? -/
def isFprItem : HeaderItem → Bool
  | .fprLine _ _ => true
  | _ => false

/-- Is this header item the explicit-threshold line? -/
def isThresholdItem : HeaderItem → Bool
  | .thresholdLine _ => true
  | _ => false

/-- The header comment block of `scan_to_file` (lines 265-281), after the
fpr fallback of line 262: version, input and motifs lines; an FPR line only
when the effective fpr is truthy, `score_table` is off, and a genome or a
truthy bgfile names the background; a threshold line whenever `cutoff` is
not `None`; and one scoring-description line. -/
def headerItems (a : ScanToFileArgs) : List HeaderItem :=
  let fpr := effectiveFpr a
  [.versionLine a.version, .inputLine a.inputfile, .motifsLine a.pfmfile]
  ++ (if truthyRat fpr && !a.score_table then
        match a.genome with
        | some g => [.fprLine (fpr.getD 0) g]
        | none =>
          if truthyStr a.bgfile then [.fprLine (fpr.getD 0) (a.bgfile.getD "")]
          else []
      else [])
  ++ (match a.cutoff with
      | some c => [.thresholdLine c]
      | none => [])
  ++ [.scoringLine (if a.zscore then
        (if a.gcnorm then "GC frequency normalized z-score" else "normalized z-score")
      else "logodds score")]

/-- The exact text of a header item (the f-strings of lines 265-281). -/
def renderHeaderItem : HeaderItem → String
  | .versionLine v => "# GimmeMotifs version " ++ v
  | .inputLine f => "# Input: " ++ f
  | .motifsLine p => "# Motifs: " ++ p
  | .fprLine q src => "# FPR: " ++ pyFloatRepr q ++ " (" ++ src ++ ")"
  | .thresholdLine c => "# Threshold: " ++ pyFloatRepr c
  | .scoringLine d => "# Scoring: " ++ d

/-- The header block as the list of printed lines. -/
def headerLines (a : ScanToFileArgs) : List String :=
  (headerItems a).map renderHeaderItem

/-- Engine calls of `scan_to_file` (lines 283-313): construct,
`set_motifs`, `set_genome(genome)`; a background call only under a truthy
genome (with `gc=gcnorm`) or else a truthy bgfile (with `gc=False`); a
`set_threshold(fpr=fpr, threshold=cutoff)` unless `score_table`; then the
dispatch (`table` wins over `score_table`, else a full scan). -/
def scanToFileTrace (a : ScanToFileArgs) : List EngineEvent :=
  [.construct, .setMotifs, .setGenome a.genome]
  ++ (if truthyStr a.genome then [.setBackground none a.genome a.gcnorm]
      else if truthyStr a.bgfile then [.setBackground a.bgfile none false]
      else [])
  ++ (if a.score_table then [] else [.setThreshold (effectiveFpr a) a.cutoff])
  ++ [.scanCall (if a.table then .count
      else if a.score_table then .bestScore
      else .scanOp)]

/-- Modelled from the spec: which input the scanning engine's
`set_threshold(fpr, threshold)` derives the detection threshold from (the
engine module is not part of the embedded source; §4.3: "cutoff: explicit
score threshold overriding false-positive-rate derivation"). -/
inductive ThresholdSource where
  | fromCutoff
  | fromFpr
  | noSource
deriving DecidableEq

/-- Modelled from the spec: the precedence of `set_threshold`'s two
arguments — an explicit cutoff overrides the false-positive-rate
derivation. -/
def set_threshold_source (fpr threshold : Option Rat) : ThresholdSource :=
  match threshold with
  | some _ => .fromCutoff
  | none =>
    match fpr with
    | some _ => .fromFpr
    | none => .noSource

/-! ### Sink lifecycle of `scan_to_file` (lines 248-260 and 314-321) -/

/-- The three shapes of `filepath_or_buffer`: `None` (stdout), an object
with a `write` attribute (caller-supplied stream), anything else (a path
this layer opens itself). -/
inductive SinkArg where
  | stdoutSink
  | bufferSink
  | pathSink (p : String)
deriving DecidableEq

/-- `should_close` of lines 248-260: only a path sink is opened, and hence
owned, by this layer. -/
def shouldClose : SinkArg → Bool
  | .pathSink _ => true
  | _ => false

/-- Observable outcome of one `scan_to_file` run for the sink. -/
structure SinkOutcome where
  openedByLayer : Bool
  closedByLayer : Bool
  raisedToCaller : Bool
  closeErrorRaised : Bool
deriving DecidableEq

/-- The sink lifecycle of `scan_to_file`: a path sink is opened up front
(line 259); the body (header, engine configuration, scan loop) runs with no
surrounding `try`/`finally`, so any exception propagates before the close
of line 319 is reached; on normal completion an owned sink is closed inside
`try: fo.close() except Exception: pass` (lines 317-321), so a close
failure never escapes; a non-owned sink is never closed. -/
def sinkLifecycle (sink : SinkArg) (bodyRaises : Bool) (_closeRaises : Bool) :
    SinkOutcome :=
  let owns := shouldClose sink
  if bodyRaises then
    { openedByLayer := owns, closedByLayer := false,
      raisedToCaller := true, closeErrorRaised := false }
  else if owns then
    -- `closeRaises` is swallowed by the bare `except Exception: pass`
    { openedByLayer := true, closedByLayer := true,
      raisedToCaller := false, closeErrorRaised := false }
  else
    { openedByLayer := false, closedByLayer := false,
      raisedToCaller := false, closeErrorRaised := false }

/-! ### `_scan_score_table` (lines 340-347) -/

/-- The body loop of `_scan_score_table`: `for i, scores in
enumerate(result_it)` yields `fa.ids[i]` followed by the `"{:4f}"`-rendered
scores, tab-joined (the out-of-range index default stands for the
`IndexError` that cannot occur while the engine yields one row per
sequence). -/
def scanScoreRows (seqIds : List String) : Nat → List (List Rat) → List String
  | _, [] => []
  | i, scores :: rest =>
    (seqIds.getD i "" ++ "\t" ++ tabJoin (scores.map (pyFormatF 4 6)))
      :: scanScoreRows seqIds (i + 1) rest

/-- `_scan_score_table`: the header row of motif identifiers, then one data
row per engine result row. -/
def _scan_score_table (motifIds seqIds : List String)
    (scoreRows : List (List Rat)) : List String :=
  ("\t" ++ tabJoin motifIds) :: scanScoreRows seqIds 0 scoreRows

/-- The fractional digits of a rendered number: the characters after the
first dot. -/
def fracPart : List Char → List Char
  | [] => []
  | c :: cs => if c = '.' then cs else fracPart cs

/-- The spec's words, for comparison with the source's rendering: "the best
match score per motif (4 decimal digits of precision)", i.e. fixed-point
with exactly 4 fractional digits. -/
def specFourDecimalRender (q : Rat) : String :=
  pyFormatFixed 4 q

/-! ### `_format_line` (lines 369-405) -/

/-- The dict `{-1: "-", 1: "+"}`; any other key is a `KeyError`. -/
def strandmapGet (strand : Int) : Option String :=
  if strand = -1 then some "-" else if strand = 1 then some "+" else none

/-- `[^\s:]`: not whitespace and not a colon. -/
def isWordChar (c : Char) : Bool :=
  !(c = ':' || c.isWhitespace)

/-- Match `([^\s:]+):(\d+)-(\d+)` anchored at the start of `cs`.  Each of
the three greedy pieces excludes its follower character, so the greedy
(maximal-run) match is the only possible one and no backtracking can occur:
the match attempt is the maximal run of non-space non-colon characters, a
colon, a maximal digit run, a dash, a maximal digit run. -/
def matchLocusAt (cs : List Char) : Option (String × Nat × Nat) :=
  let g1 := cs.takeWhile isWordChar
  if g1.isEmpty then none
  else
    match cs.drop g1.length with
    | ':' :: rest =>
      let g2 := rest.takeWhile Char.isDigit
      if g2.isEmpty then none
      else
        match rest.drop g2.length with
        | '-' :: rest2 =>
          let g3 := rest2.takeWhile Char.isDigit
          if g3.isEmpty then none
          else some (String.mk g1, natOfDigits g2, natOfDigits g3)
        | _ => none
    | _ => none

/-- `re.search` of the compiled pattern: the leftmost position with a
match. -/
def searchLocus : List Char → Option (String × Nat × Nat)
  | [] => none
  | c :: cs =>
    match matchLocusAt (c :: cs) with
    | some r => some r
    | none => searchLocus cs

/-- `_format_line(seq, seq_id, motif, score, pos, strand, bed=...)`.
`motifId`/`motifLen` are `motif.id`/`len(motif)`; `score` is the verbatim
text its `"{}"` interpolation produces; the result is `none` exactly when
`strandmap[strand]` raises `KeyError`. -/
def _format_line (seq seq_id motifId : String) (motifLen : Nat)
    (score : String) (pos : Nat) (strand : Int) (bed : Bool) : Option String :=
  match strandmapGet strand with
  | none => none
  | some sm =>
    if bed then
      match searchLocus seq_id.data with
      | some (chrom, start, _) =>
        some (chrom ++ "\t" ++ toString (start + pos) ++ "\t"
          ++ toString (start + pos + motifLen) ++ "\t" ++ motifId ++ "\t"
          ++ score ++ "\t" ++ sm)
      | none =>
        some (seq_id ++ "\t" ++ toString pos ++ "\t"
          ++ toString (pos + motifLen) ++ "\t" ++ motifId ++ "\t"
          ++ score ++ "\t" ++ sm)
    else
      some (seq_id ++ "\t" ++ "pfmscan" ++ "\t" ++ "misc_feature" ++ "\t"
        ++ toString (pos + 1) ++ "\t" ++ toString (pos + motifLen) ++ "\t"
        ++ score ++ "\t" ++ sm ++ "\t" ++ "." ++ "\t"
        ++ "motif_name \"" ++ motifId ++ "\" ; motif_instance \""
        ++ pySlice seq pos (pos + motifLen) ++ "\"")

/-! ### Table construction of `scan_regionfile_to_table` (lines 126-133) -/

/-- The pandas dtypes the function selects between: the Python `int` type
and the string `"float16"` (numpy's 16-bit reduced-precision float). -/
inductive PdDtype where
  | pyInt
  | float16
deriving DecidableEq

/-- Lines 128-130: `dtype = "float16"; if scoring == "count": dtype =
int`. -/
def tableDtype (scoring : String) : PdDtype :=
  if scoring = "count" then .pyInt else .float16

/-- The dataframe-shaped result: index, columns, dtype, and the accumulated
per-region rows. -/
structure RegionTable (α : Type) where
  index : List String
  columns : List String
  dtype : PdDtype
  values : List (List α)

/-- Line 131: `pd.DataFrame(scores, index=idx, columns=motif_names,
dtype=dtype)` — the index is the region list in file order, the columns are
`s.motif_ids` in resolved order, and the rows are the engine's yielded rows
in order. -/
def scanRegionfileTable {α : Type} (idx motifIds : List String)
    (scoring : String) (engineRows : List (List α)) : RegionTable α :=
  { index := idx, columns := motifIds, dtype := tableDtype scoring,
    values := engineRows }

/-- Decidable equality of `check_motifs` outcomes. -/
instance : DecidableEq (Except CheckError CheckResult) := fun x y =>
  match x, y with
  | .ok a, .ok b =>
    if h : a = b then .isTrue (by rw [h]) else .isFalse (by simp [h])
  | .error a, .error b =>
    if h : a = b then .isTrue (by rw [h]) else .isFalse (by simp [h])
  | .ok _, .error _ => .isFalse (by simp)
  | .error _, .ok _ => .isFalse (by simp)

/-! ## Claims -/

/-- C2: `check_motifs` fails with an input-validation error exactly when the
input is a non-empty list whose first element lacks `to_ppm`, or is of a
type other than list, string or None; a non-empty list with the capability
is returned unchanged; `None` fails with the configuration error when no
default database is registered, and otherwise joins the default name onto
the motif directory and fails with a not-found error carrying that path
when it does not exist; a string resolving to a missing path also fails
with a not-found error carrying the path. -/
theorem check_motifs_validation (cfg : MotifConfig) (pathExists : String → Bool) :
    (∀ src, isInputValidation (check_motifs cfg pathExists src) = true ↔
        ((∃ m ms, src = .ofList (m :: ms) ∧ m.has_to_ppm = false) ∨ src = .otherV)) ∧
    (∀ m ms, m.has_to_ppm = true →
        check_motifs cfg pathExists (.ofList (m :: ms)) = .ok (.motifList (m :: ms))) ∧
    (cfg.motif_db = none →
        check_motifs cfg pathExists .noneV = .error (.valueError noDefaultMsg)) ∧
    (∀ db, cfg.motif_db = some db →
        pathExists (osPathJoin cfg.motif_dir db) = false →
        check_motifs cfg pathExists .noneV
          = .error (.fileNotFound (osPathJoin cfg.motif_dir db))) ∧
    (∀ s, pathExists s = false →
        check_motifs cfg pathExists (.ofStr s) = .error (.fileNotFound s)) := by
  refine ⟨fun src => ?_, fun m ms hm => ?_, fun hdb => ?_, fun db hdb hex => ?_,
    fun s hex => ?_⟩
  · constructor
    · intro h
      match src with
      | .ofList [] => simp [check_motifs, isInputValidation] at h
      | .ofList (m :: rest) =>
        by_cases hm : m.has_to_ppm
        · simp [check_motifs, hm, isInputValidation] at h
        · exact Or.inl ⟨m, rest, rfl, by simpa using hm⟩
      | .ofStr s =>
        by_cases hex : pathExists s <;>
          simp [check_motifs, hex, isInputValidation] at h
      | .noneV =>
        match hdb : cfg.motif_db with
        | none =>
          rw [show check_motifs cfg pathExists .noneV
              = .error (.valueError noDefaultMsg) by simp [check_motifs, hdb]] at h
          exact absurd h (by decide)
        | some db =>
          by_cases hex : pathExists (osPathJoin cfg.motif_dir db) <;>
            simp [check_motifs, hdb, hex, isInputValidation] at h
      | .otherV => exact Or.inr rfl
    · rintro (⟨m, ms, rfl, hm⟩ | rfl)
      · simp [check_motifs, hm, isInputValidation, badListMsg]
      · simp [check_motifs, isInputValidation]
  · simp [check_motifs, hm]
  · simp [check_motifs, hdb]
  · simp [check_motifs, hdb, hex]
  · simp [check_motifs, hex]

/-- C2 witness: the five behaviours at concrete inputs. -/
theorem check_motifs_validation_witness :
    isInputValidation (check_motifs ⟨some "db.pfm", "/mdir"⟩ (fun _ => false)
      (.ofList [⟨false⟩])) = true ∧
    check_motifs ⟨some "db.pfm", "/mdir"⟩ (fun _ => false) (.ofList [⟨true⟩])
      = .ok (.motifList [⟨true⟩]) ∧
    check_motifs ⟨none, "/mdir"⟩ (fun _ => false) .noneV
      = .error (.valueError noDefaultMsg) ∧
    check_motifs ⟨some "db.pfm", "/mdir"⟩ (fun _ => false) .noneV
      = .error (.fileNotFound "/mdir/db.pfm") ∧
    check_motifs ⟨some "db.pfm", "/mdir"⟩ (fun _ => false) (.ofStr "x.pfm")
      = .error (.fileNotFound "x.pfm") := by
  have h := check_motifs_validation ⟨some "db.pfm", "/mdir"⟩ (fun _ => false)
  have h0 := check_motifs_validation ⟨none, "/mdir"⟩ (fun _ => false)
  refine ⟨(h.1 _).mpr (Or.inl ⟨⟨false⟩, [], rfl, rfl⟩), h.2.1 ⟨true⟩ [] rfl,
    h0.2.2.1 rfl, ?_, h.2.2.2.2 "x.pfm" rfl⟩
  exact (h.2.2.2.1 "db.pfm" rfl rfl).trans (by decide)

/-- C4: `_format_line` renders a bed match whose identifier parses as
`contig:start-end` with genome coordinates `start+pos`, a bed match without
the pattern with sequence-relative coordinates, and otherwise the 9-field
annotation record with 1-based start `pos+1`, end `pos+motif_length`, and
the `motif_name`/`motif_instance` attribute string quoting
`seq[pos:pos+motif_length]`; strand -1 renders as `-`, +1 as `+`. -/
theorem format_line_fields (seq seq_id motifId : String) (motifLen : Nat)
    (score : String) (pos : Nat) (strand : Int)
    (hs : strand = 1 ∨ strand = -1) :
    (∀ chrom start e, searchLocus seq_id.data = some (chrom, start, e) →
      _format_line seq seq_id motifId motifLen score pos strand true
        = some (chrom ++ "\t" ++ toString (start + pos) ++ "\t"
            ++ toString (start + pos + motifLen) ++ "\t" ++ motifId ++ "\t"
            ++ score ++ "\t" ++ (if strand = 1 then "+" else "-"))) ∧
    (searchLocus seq_id.data = none →
      _format_line seq seq_id motifId motifLen score pos strand true
        = some (seq_id ++ "\t" ++ toString pos ++ "\t" ++ toString (pos + motifLen)
            ++ "\t" ++ motifId ++ "\t" ++ score ++ "\t"
            ++ (if strand = 1 then "+" else "-"))) ∧
    _format_line seq seq_id motifId motifLen score pos strand false
      = some (seq_id ++ "\t" ++ "pfmscan" ++ "\t" ++ "misc_feature" ++ "\t"
          ++ toString (pos + 1) ++ "\t" ++ toString (pos + motifLen) ++ "\t"
          ++ score ++ "\t" ++ (if strand = 1 then "+" else "-") ++ "\t" ++ "."
          ++ "\t" ++ "motif_name \"" ++ motifId ++ "\" ; motif_instance \""
          ++ pySlice seq pos (pos + motifLen) ++ "\"") := by
  rcases hs with h | h <;> subst h <;>
    exact ⟨fun chrom start e hm => by simp [_format_line, strandmapGet, hm],
      fun hm => by simp [_format_line, strandmapGet, hm],
      by simp [_format_line, strandmapGet]⟩

/-- C4 witness: the spec's concrete example, identifier `chr1:1000-2000`,
position 5, motif length 8, strand +1, in both bed shapes and the 9-field
shape. -/
theorem format_line_fields_witness :
    _format_line "ACGTACGTACGTACGT" "chr1:1000-2000" "m1" 8 "12.0" 5 1 true
      = some "chr1\t1005\t1013\tm1\t12.0\t+" ∧
    _format_line "ACGTACGTACGTACGT" "seq42" "m1" 8 "12.0" 5 1 true
      = some "seq42\t5\t13\tm1\t12.0\t+" ∧
    _format_line "ACGTACGTACGTACGT" "seq42" "m1" 8 "12.0" 5 1 false
      = some "seq42\tpfmscan\tmisc_feature\t6\t13\t12.0\t+\t.\tmotif_name \"m1\" ; motif_instance \"CGTACGTA\"" := by
  have h1 := format_line_fields "ACGTACGTACGTACGT" "chr1:1000-2000" "m1" 8 "12.0"
    5 1 (Or.inl rfl)
  have h2 := format_line_fields "ACGTACGTACGTACGT" "seq42" "m1" 8 "12.0"
    5 1 (Or.inl rfl)
  exact ⟨(h1.1 "chr1" 1000 2000 (by decide)).trans (by decide),
    (h2.2.1 (by decide)).trans (by decide), h2.2.2.trans (by decide)⟩

/-- C3: with fewer than 1000 regions the whole list feeds the estimate;
with 1000 or more, exactly 1000 are drawn without replacement from the
injectable random source; the estimate is the integer median of the
resolved lengths; and the computation is deterministic in its inputs. -/
theorem background_size_sampling (resolve : String → Nat)
    (sample : List String → Nat → List String) (regions : List String)
    (hs : SamplesWithoutReplacement sample) :
    (regions.length < 1000 → checkRegionsModel sample regions = regions) ∧
    (1000 ≤ regions.length →
      (checkRegionsModel sample regions).length = 1000 ∧
      List.Subperm (checkRegionsModel sample regions) regions) ∧
    sizeEstimate resolve sample regions
      = intMedian ((checkRegionsModel sample regions).map resolve) ∧
    sizeEstimate resolve sample regions = sizeEstimate resolve sample regions := by
  refine ⟨fun h => ?_, fun h => ?_, rfl, rfl⟩
  · rw [checkRegionsModel, if_neg (by omega)]
  · rw [checkRegionsModel, if_pos h]
    exact hs regions 1000 h

/-- C3 witness: a take-a-prefix random source satisfies the
without-replacement contract; three regions are used whole, and a
1000-region list yields a sample of exactly 1000. -/
theorem background_size_sampling_witness :
    checkRegionsModel (fun pop k => pop.take k) ["a", "b", "c"] = ["a", "b", "c"] ∧
    (checkRegionsModel (fun pop k => pop.take k)
      (List.replicate 1000 "r")).length = 1000 ∧
    sizeEstimate (fun _ => 7) (fun pop k => pop.take k) ["a", "b", "c"] = 7 := by
  have hs : SamplesWithoutReplacement (fun pop k => pop.take k) := by
    intro pop k hk
    constructor
    · simpa using Nat.min_eq_left hk
    · exact (List.take_sublist k pop).subperm
  have h1 := background_size_sampling (fun _ => 7) (fun pop k => pop.take k)
    ["a", "b", "c"] hs
  have h2 := background_size_sampling (fun _ => 7) (fun pop k => pop.take k)
    (List.replicate 1000 "r") hs
  refine ⟨h1.1 (by decide), (h2.2.1 (by rw [List.length_replicate])).1, ?_⟩
  rw [h1.2.2.1, h1.1 (by decide)]
  decide

/-- C6: the table of `scan_regionfile_to_table` is indexed by the regions
in file order, columned by the motif identifiers in resolved order, has one
row per region, and its dtype is `int` for count scoring and `float16` for
score scoring. -/
theorem region_table_shape_dtype {α : Type} (idx motifIds : List String)
    (scoring : String) (engineRows : List (List α))
    (h : engineRows.length = idx.length) :
    (scanRegionfileTable idx motifIds scoring engineRows).index = idx ∧
    (scanRegionfileTable idx motifIds scoring engineRows).columns = motifIds ∧
    (scanRegionfileTable idx motifIds scoring engineRows).values.length
      = idx.length ∧
    (scoring = "count" →
      (scanRegionfileTable idx motifIds scoring engineRows).dtype = .pyInt) ∧
    (scoring = "score" →
      (scanRegionfileTable idx motifIds scoring engineRows).dtype = .float16) := by
  refine ⟨rfl, rfl, h, fun hc => ?_, fun hv => ?_⟩
  · simp [scanRegionfileTable, tableDtype, hc]
  · subst hv
    rw [scanRegionfileTable, tableDtype, if_neg (by decide)]

/-- C6 witness: one region, one motif, one engine row, in both scoring
modes. -/
theorem region_table_shape_dtype_witness :
    (scanRegionfileTable ["r1"] ["m1"] "count" [[(3 : Nat)]]).dtype = .pyInt ∧
    (scanRegionfileTable ["r1"] ["m1"] "count" [[(3 : Nat)]]).index = ["r1"] ∧
    (scanRegionfileTable ["r1"] ["m1"] "score" [[mkRat 3 2]]).dtype = .float16 ∧
    (scanRegionfileTable ["r1"] ["m1"] "score" [[mkRat 3 2]]).columns = ["m1"] := by
  have hc := region_table_shape_dtype ["r1"] ["m1"] "count" [[(3 : Nat)]] rfl
  have hv := region_table_shape_dtype ["r1"] ["m1"] "score" [[mkRat 3 2]] rfl
  exact ⟨hc.2.2.2.1 rfl, hc.1, hv.2.2.2.2 rfl, hv.2.1⟩

/-- The enumerate-and-index loop of `_scan_score_table` agrees with pairing
each identifier with its row, whenever the engine yields exactly one row
per sequence. -/
theorem scanScoreRows_zip (rows : List (List Rat)) :
    ∀ (pre ids : List String), rows.length = ids.length →
    scanScoreRows (pre ++ ids) pre.length rows
      = (ids.zip rows).map
          (fun p => p.1 ++ "\t" ++ tabJoin (p.2.map (pyFormatF 4 6))) := by
  induction rows with
  | nil =>
    intro pre ids h
    cases ids with
    | nil => simp [scanScoreRows]
    | cons i is => simp at h
  | cons r rs ih =>
    intro pre ids h
    cases ids with
    | nil => simp at h
    | cons i is =>
      have h' : rs.length = is.length := by simpa using h
      have hd : (pre ++ i :: is).getD pre.length "" = i := by
        rw [List.getD_eq_getElem?_getD, List.getElem?_append_right (le_refl _)]
        simp
      have ht : scanScoreRows (pre ++ i :: is) (pre.length + 1) rs
          = (is.zip rs).map
              (fun p => p.1 ++ "\t" ++ tabJoin (p.2.map (pyFormatF 4 6))) := by
        have := ih (pre ++ [i]) is h'
        simpa [List.append_assoc] using this
      simp only [scanScoreRows, hd, ht, List.zip_cons_cons, List.map_cons]

/-- C8 (amended): every data row of the streaming score table is the
sequence identifier followed by one best-match score per motif in resolved
motif order, but the scores are rendered with Python's `"{:4f}"` — minimum
field width 4 with the DEFAULT precision of 6 decimal digits — not with 4
decimal digits. -/
theorem score_table_rows_amended (motifIds ids : List String)
    (rows : List (List Rat)) (h : rows.length = ids.length) :
    _scan_score_table motifIds ids rows
      = ("\t" ++ tabJoin motifIds)
        :: (ids.zip rows).map
            (fun p => p.1 ++ "\t" ++ tabJoin (p.2.map (pyFormatF 4 6))) ∧
    pyFormatF 4 6 (mkRat 3 2) = "1.500000" ∧
    pyFormatF 4 6 (mkRat 12345 10000) = "1.234500" := by
  refine ⟨?_, by decide, by decide⟩
  have hz := scanScoreRows_zip rows [] ids h
  simpa [_scan_score_table] using hz

/-- C8 witness: a concrete two-motif table. -/
theorem score_table_rows_amended_witness :
    _scan_score_table ["m1", "m2"] ["s1"] [[mkRat 3 2, 0]]
      = ["\tm1\tm2", "s1\t1.500000\t0.000000"] := by
  have h := (score_table_rows_amended ["m1", "m2"] ["s1"] [[mkRat 3 2, 0]] rfl).1
  exact h.trans (by decide)

/-- C8 counterexample: the claim's "exactly 4 decimal digits" fails — the
rendered cell for the score 1.5 is `1.500000` (6 fractional digits), while
a 4-decimal-digit rendering of the same score would be `1.5000`. -/
theorem score_table_precision_cex :
    _scan_score_table ["m1"] ["s1"] [[mkRat 3 2]] = ["\tm1", "s1\t1.500000"] ∧
    (fracPart "1.500000".data).length = 6 ∧
    specFourDecimalRender (mkRat 3 2) = "1.5000" ∧
    ("1.500000" : String) ≠ "1.5000" := by decide

/-- C1 counterexample: with `score_table=True` and `cutoff=5` the header
block DOES contain an explicit-threshold line, refuting "the header comment
block contains neither a false-positive-rate line nor an explicit-threshold
line for every combination of the fpr and cutoff arguments". -/
theorem scan_to_file_score_table_header_cex :
    (headerItems { score_table := true, cutoff := some 5 }).any isThresholdItem
      = true ∧
    HeaderItem.thresholdLine 5 ∈ headerItems { score_table := true, cutoff := some 5 } := by
  decide

/-- C1 (amended): in score-table mode `set_threshold` is never called and
no false-positive-rate line is printed, for every fpr/cutoff combination;
but a threshold line IS printed whenever `cutoff` is not `None`, in
score-table mode too; and with `score_table` off and both `fpr` and
`cutoff` absent, the engine threshold is set from the default
false-positive rate. -/
theorem scan_to_file_score_table_threshold (a : ScanToFileArgs) :
    (a.score_table = true →
      (scanToFileTrace a).all (fun e => !isThresholdEvent e) = true ∧
      (headerItems a).all (fun x => !isFprItem x) = true) ∧
    (∀ c, a.cutoff = some c → HeaderItem.thresholdLine c ∈ headerItems a) ∧
    (a.score_table = false → a.fpr = none → a.cutoff = none →
      EngineEvent.setThreshold (some FPR) none ∈ scanToFileTrace a) := by
  refine ⟨fun hst => ⟨?_, ?_⟩, fun c hc => ?_, fun hst hf hc => ?_⟩
  · cases hG : truthyStr a.genome <;> cases hB : truthyStr a.bgfile <;>
      simp [scanToFileTrace, hG, hB, hst, isThresholdEvent]
  · cases hc : a.cutoff <;>
      simp [headerItems, hst, hc, isFprItem]
  · cases hst : a.score_table <;> cases hG : a.genome <;>
      simp [headerItems, hc, hG, isFprItem]
  · cases hG : truthyStr a.genome <;> cases hB : truthyStr a.bgfile <;>
      simp [scanToFileTrace, hG, hB, hst, effectiveFpr, hf, hc]

/-- C1 witness: the amended behaviours at concrete argument records. -/
theorem scan_to_file_score_table_threshold_witness :
    (scanToFileTrace { score_table := true, cutoff := some 5 }).all
      (fun e => !isThresholdEvent e) = true ∧
    (headerItems { score_table := true, cutoff := some 5 }).all
      (fun x => !isFprItem x) = true ∧
    HeaderItem.thresholdLine 5 ∈ headerItems { score_table := true, cutoff := some 5 } ∧
    EngineEvent.setThreshold (some FPR) none ∈ scanToFileTrace { fpr := none } := by
  have h1 := scan_to_file_score_table_threshold { score_table := true, cutoff := some 5 }
  have h2 := scan_to_file_score_table_threshold { fpr := none }
  exact ⟨(h1.1 rfl).1, (h1.1 rfl).2, h1.2.1 5 rfl, h2.2.2 rfl rfl rfl⟩

/-- C5 counterexample: in `scan_to_file` with `table=True` and an explicit
cutoff, the one threshold-configuration call forwards the cutoff to the
engine (together with the default fpr of 0.01), and under the spec's
precedence an explicit cutoff overrides the false-positive-rate
derivation — so the threshold does NOT come from the false-positive rate
rather than the cutoff argument. -/
theorem count_mode_cutoff_forwarded_cex :
    (scanToFileTrace { table := true, cutoff := some 5 }).filter isThresholdEvent
      = [EngineEvent.setThreshold (some (mkRat 1 100)) (some 5)] ∧
    set_threshold_source (some (mkRat 1 100)) (some 5) = ThresholdSource.fromCutoff ∧
    ThresholdSource.fromCutoff ≠ ThresholdSource.fromFpr := by decide

/-- C5 (amended): in `scan_regionfile_to_table` with `scoring="count"` the
engine threshold is always set from the fixed default FPR with no cutoff;
but in `scan_to_file` with `table=True` the cutoff argument is forwarded to
the engine threshold call exactly as in annotation mode (it is not
ignored). -/
theorem count_mode_threshold_amended (g : String) (gc : Bool)
    (a : ScanToFileArgs) (ha : a.score_table = false) :
    (scanRegionfileTrace g gc "count").filter isThresholdEvent
      = [EngineEvent.setThreshold (some FPR) none] ∧
    EngineEvent.setThreshold (effectiveFpr a) a.cutoff ∈ scanToFileTrace a := by
  constructor
  · simp [scanRegionfileTrace, isThresholdEvent]
  · cases hG : truthyStr a.genome <;> cases hB : truthyStr a.bgfile <;>
      simp [scanToFileTrace, hG, hB, ha]

/-- C5 witness: the amended behaviours at concrete inputs. -/
theorem count_mode_threshold_amended_witness :
    (scanRegionfileTrace "hg38" true "count").filter isThresholdEvent
      = [EngineEvent.setThreshold (some FPR) none] ∧
    EngineEvent.setThreshold
        (effectiveFpr { table := true, cutoff := some 5 })
        ({ table := true, cutoff := some 5 } : ScanToFileArgs).cutoff
      ∈ scanToFileTrace { table := true, cutoff := some 5 } := by
  have h := count_mode_threshold_amended "hg38" true
    { table := true, cutoff := some 5 } rfl
  exact ⟨h.1, h.2⟩

/-- C9 counterexample: `scan_to_best_match` configures the engine genome
BEFORE the motifs, so its configuration calls do not occur in the claimed
fixed order motifs-then-genome-then-threshold. -/
theorem engine_config_order_cex :
    claimOrderOK (scanToBestMatchTrace (some "hg38") false) = false := by decide

/-- C9 (amended): each entry operation constructs exactly one engine and
finishes all configuration before any result-producing scan call;
`scan_regionfile_to_table` and `scan_to_file` configure in the order
motifs, then genome/background, then threshold, while `scan_to_best_match`
configures genome, then motifs, then threshold. -/
theorem engine_config_order_amended :
    (∀ g gc scoring, claimOrderOK (scanRegionfileTrace g gc scoring) = true) ∧
    (∀ a, claimOrderOK (scanToFileTrace a) = true) ∧
    (∀ g score, scanToBestMatchTrace g score
      = [.construct, .setGenome g, .setMotifs, .setThreshold none (some 0),
         .scanCall (if score then .bestScore else .bestMatch)]) ∧
    (∀ g score, coarseOrderOK (scanToBestMatchTrace g score) = true) := by
  refine ⟨fun g gc scoring => ?_, fun a => ?_, fun g score => rfl, fun g score => ?_⟩
  · by_cases h : scoring = "count" <;>
      simp [claimOrderOK, scanRegionfileTrace, h, eventRank, ranksMonotone,
        isConstructEvent, List.countP_cons, List.countP_nil]
  · cases hG : truthyStr a.genome <;> cases hB : truthyStr a.bgfile <;>
      cases hS : a.score_table <;>
      simp [claimOrderOK, scanToFileTrace, hG, hB, hS, eventRank, ranksMonotone,
        isConstructEvent, List.countP_cons, List.countP_nil]
  · cases score <;>
      simp [coarseOrderOK, scanToBestMatchTrace, coarseRank, ranksMonotone,
        isConstructEvent, List.countP_cons, List.countP_nil]

/-- C10: in `scan_to_file`, with no genome and a (non-empty) background
file, the one background-configuration call carries `gc=False` regardless
of `gcnorm`; with neither genome nor background file, no background call is
made at all. -/
theorem background_config_no_genome (a : ScanToFileArgs) (hg : a.genome = none) :
    (∀ b, a.bgfile = some b → b ≠ "" →
      (scanToFileTrace a).filter isBackgroundEvent
        = [EngineEvent.setBackground (some b) none false]) ∧
    (a.bgfile = none →
      (scanToFileTrace a).all (fun e => !isBackgroundEvent e) = true) := by
  constructor
  · intro b hb hbne
    have hB : truthyStr a.bgfile = true := by simp [truthyStr, hb, hbne]
    cases hS : a.score_table <;>
      simp [scanToFileTrace, hg, truthyStr, hb, hbne, hS, isBackgroundEvent]
  · intro hb
    cases hS : a.score_table <;>
      simp [scanToFileTrace, hg, hb, truthyStr, hS, isBackgroundEvent]

/-- C10 witness: a bgfile-only run (gcnorm left at its default True) and a
run with neither source. -/
theorem background_config_no_genome_witness :
    (scanToFileTrace { bgfile := some "bg.fa" }).filter isBackgroundEvent
      = [EngineEvent.setBackground (some "bg.fa") none false] ∧
    (scanToFileTrace {}).all (fun e => !isBackgroundEvent e) = true := by
  exact ⟨(background_config_no_genome { bgfile := some "bg.fa" } rfl).1
      "bg.fa" rfl (by decide),
    (background_config_no_genome {} rfl).2 rfl⟩

/-- C7 counterexample: when `scan_to_file` itself opened the sink from a
path and the body raises, the sink is NOT closed (there is no
`try`/`finally` around the scan loop), refuting "closed on every exit
path". -/
theorem sink_close_exception_cex :
    (sinkLifecycle (.pathSink "out.bed") true false).openedByLayer = true ∧
    (sinkLifecycle (.pathSink "out.bed") true false).raisedToCaller = true ∧
    (sinkLifecycle (.pathSink "out.bed") true false).closedByLayer = false := by
  decide

/-- C7 (amended): a sink the layer opened from a path is closed on normal
completion, with a close failure swallowed and never escalated; on an
exception the error propagates and the sink is not closed by this layer; a
caller-supplied stream or stdout is never closed. -/
theorem sink_ownership_amended (sink : SinkArg) (bodyRaises closeRaises : Bool) :
    (shouldClose sink = false →
      (sinkLifecycle sink bodyRaises closeRaises).closedByLayer = false) ∧
    (bodyRaises = false → shouldClose sink = true →
      (sinkLifecycle sink bodyRaises closeRaises).closedByLayer = true) ∧
    (sinkLifecycle sink bodyRaises closeRaises).closeErrorRaised = false ∧
    (bodyRaises = true →
      (sinkLifecycle sink bodyRaises closeRaises).raisedToCaller = true ∧
      (sinkLifecycle sink bodyRaises closeRaises).closedByLayer = false) := by
  cases sink <;> cases bodyRaises <;>
    simp [sinkLifecycle, shouldClose]

/-- C7 witness: a caller-supplied buffer is left open; a path sink is
closed on success even when the close itself raises, with the close error
swallowed. -/
theorem sink_ownership_amended_witness :
    (sinkLifecycle .bufferSink false true).closedByLayer = false ∧
    (sinkLifecycle (.pathSink "out.bed") false true).closedByLayer = true ∧
    (sinkLifecycle (.pathSink "out.bed") false true).closeErrorRaised = false := by
  exact ⟨(sink_ownership_amended .bufferSink false true).1 rfl,
    (sink_ownership_amended (.pathSink "out.bed") false true).2.1 rfl rfl,
    (sink_ownership_amended (.pathSink "out.bed") false true).2.2.1⟩

end Gimme
